import Mathlib

/-!
Shallow embedding of the family-wishlist server (shared/schema.ts,
server/storage.ts `MemStorage` / `DatabaseStorage`, server/routes.ts).

Records mirror the drizzle schema; `createdAt` timestamps are modelled as
`Nat` (the value of `Date.getTime()`); the JS `Map<number, T>` collections of
`MemStorage` are modelled as insertion-ordered association lists (`JsMap`),
matching `Map.set` (replace in place for an existing key, append for a new
one), `Map.get`, `Map.delete` and `Array.from(map.values())`.  The SQL tables
of `DatabaseStorage` are modelled as row lists in id order.  `Date.now()` is
passed in explicitly as a `now : Nat` argument, and the `Math.random`-based
invite-code generator is modelled by passing the generated code in as an
argument (every string is a possible outcome of the generator).
-/

namespace FamilyWishlist

/-- User record, per the `users` table of shared/schema.ts. -/
structure User where
  id : Nat
  name : String
  email : Option String
  password : String
  familyGroupId : Option Nat
  deriving Repr, DecidableEq

/-- Family-group record, per the `familyGroups` table of shared/schema.ts. -/
structure FamilyGroup where
  id : Nat
  name : String
  inviteCode : String
  createdAt : Nat
  deriving Repr, DecidableEq

/-- Wishlist-item record, per the `wishlistItems` table of shared/schema.ts. -/
structure WishlistItem where
  id : Nat
  userId : Nat
  name : String
  description : Option String
  price : Option Nat
  category : Option String
  priority : String
  storeLink : Option String
  imageUrl : Option String
  isReserved : Bool
  reservedByUserId : Option Nat
  createdAt : Nat
  deriving Repr, DecidableEq

/-- Activity record, per the `activities` table of shared/schema.ts. -/
structure Activity where
  id : Nat
  userId : Nat
  familyGroupId : Nat
  action : String
  itemName : Option String
  targetUserId : Option Nat
  createdAt : Nat
  deriving Repr, DecidableEq

/-- Secret-note record, per the `secretNotes` table of shared/schema.ts. -/
structure SecretNote where
  id : Nat
  wishlistItemId : Nat
  userId : Nat
  note : String
  createdAt : Nat
  deriving Repr, DecidableEq

/-- Body accepted by `insertWishlistItemSchema` (shared/schema.ts). -/
structure InsertWishlistItem where
  name : String
  description : Option String
  price : Option Nat
  category : Option String
  priority : String
  storeLink : Option String
  imageUrl : Option String
  deriving Repr, DecidableEq

/-- Argument record of `IStorage.createActivity`. -/
structure InsertActivity where
  userId : Nat
  familyGroupId : Nat
  action : String
  itemName : Option String
  targetUserId : Option Nat
  deriving Repr, DecidableEq

/-- Body accepted by `insertSecretNoteSchema` (shared/schema.ts). -/
structure InsertSecretNote where
  wishlistItemId : Nat
  note : String
  deriving Repr, DecidableEq

/-- Model of a JS `Map<number, T>`: an insertion-ordered association list. -/
abbrev JsMap (α : Type) : Type := List (Nat × α)

/-- Model of `Map.get`: the value stored under the first matching key. -/
def JsMap.get {α : Type} (m : JsMap α) (k : Nat) : Option α :=
  (List.find? (fun p => p.1 == k) m).map (fun p => p.2)

/-- Model of `Map.has`. -/
def JsMap.has {α : Type} (m : JsMap α) (k : Nat) : Bool :=
  m.any (fun p => p.1 == k)

/-- Model of `Map.set`: replace in place when the key exists, else append. -/
def JsMap.set {α : Type} (m : JsMap α) (k : Nat) (v : α) : JsMap α :=
  if m.any (fun p => p.1 == k) then
    m.map (fun p => if p.1 == k then (k, v) else p)
  else
    m ++ [(k, v)]

/-- Model of `Map.delete` (the removal part; `has` gives the return value). -/
def JsMap.delete {α : Type} (m : JsMap α) (k : Nat) : JsMap α :=
  m.filter (fun p => p.1 != k)

/-- Model of `Array.from(map.values())`: values in insertion order. -/
def JsMap.values {α : Type} (m : JsMap α) : List α :=
  m.map (fun p => p.2)

/-- Stable insertion (descending by `key`) used to model `Array.sort` with the
comparator `(a, b) => b.key - a.key`. -/
def insertDescBy {α : Type} (key : α → Nat) (a : α) : List α → List α
  | [] => [a]
  | b :: l => if key b < key a then a :: b :: l else b :: insertDescBy key a l

/-- Stable sort, descending by `key`: the model of JS `Array.sort` with the
comparator `(a, b) => b.key - a.key` (JS sort is stable). -/
def sortDescBy {α : Type} (key : α → Nat) (l : List α) : List α :=
  l.foldl (fun acc a => insertDescBy key a acc) []

/-- JS truthiness of a `number | null` value: `null` and `0` are falsy. -/
def optionNatFalsy : Option Nat → Bool
  | none => true
  | some n => n == 0

/-- State of `MemStorage` (server/storage.ts): five `Map`s plus the
auto-increment counters. -/
structure MemStorage where
  users : JsMap User
  familyGroups : JsMap FamilyGroup
  wishlistItems : JsMap WishlistItem
  activities : JsMap Activity
  secretNotes : JsMap SecretNote
  currentUserId : Nat
  currentFamilyGroupId : Nat
  currentWishlistItemId : Nat
  currentActivityId : Nat
  currentSecretNoteId : Nat
  deriving Repr, DecidableEq

/-- State produced by the `MemStorage` constructor. -/
def MemStorage.empty : MemStorage :=
  { users := [], familyGroups := [], wishlistItems := [], activities := [],
    secretNotes := [], currentUserId := 1, currentFamilyGroupId := 1,
    currentWishlistItemId := 1, currentActivityId := 1, currentSecretNoteId := 1 }

/-- Model of `MemStorage.getUser`. -/
def MemStorage.getUser (s : MemStorage) (id : Nat) : Option User :=
  JsMap.get s.users id

/-- Model of `MemStorage.updateUserFamilyGroup`. -/
def MemStorage.updateUserFamilyGroup (s : MemStorage) (userId familyGroupId : Nat) :
    Option User × MemStorage :=
  match JsMap.get s.users userId with
  | none => (none, s)
  | some user =>
    let updatedUser : User := { user with familyGroupId := some familyGroupId }
    (some updatedUser, { s with users := JsMap.set s.users userId updatedUser })

/-- Model of `MemStorage.getFamilyGroup`. -/
def MemStorage.getFamilyGroup (s : MemStorage) (id : Nat) : Option FamilyGroup :=
  JsMap.get s.familyGroups id

/-- Model of `MemStorage.getFamilyGroupByInviteCode`. -/
def MemStorage.getFamilyGroupByInviteCode (s : MemStorage) (inviteCode : String) :
    Option FamilyGroup :=
  List.find? (fun group => group.inviteCode == inviteCode) (JsMap.values s.familyGroups)

/-- Model of `MemStorage.createFamilyGroup`; the caller supplies the invite
code already generated by `generateInviteCode`. -/
def MemStorage.createFamilyGroup (s : MemStorage) (name inviteCode : String) (now : Nat) :
    FamilyGroup × MemStorage :=
  let id := s.currentFamilyGroupId
  let familyGroup : FamilyGroup := { id := id, name := name, inviteCode := inviteCode, createdAt := now }
  (familyGroup,
   { s with familyGroups := JsMap.set s.familyGroups id familyGroup,
            currentFamilyGroupId := id + 1 })

/-- Model of `MemStorage.getFamilyMembers`. -/
def MemStorage.getFamilyMembers (s : MemStorage) (familyGroupId : Nat) : List User :=
  (JsMap.values s.users).filter (fun user => user.familyGroupId == some familyGroupId)

/-- Model of `MemStorage.getWishlistItems`: filter by owner, then sort
newest-first by `createdAt` (the JS comparator `b.createdAt - a.createdAt`). -/
def MemStorage.getWishlistItems (s : MemStorage) (userId : Nat) : List WishlistItem :=
  sortDescBy WishlistItem.createdAt
    ((JsMap.values s.wishlistItems).filter (fun item => item.userId == userId))

/-- Model of `MemStorage.getWishlistItem`. -/
def MemStorage.getWishlistItem (s : MemStorage) (id : Nat) : Option WishlistItem :=
  JsMap.get s.wishlistItems id

/-- Model of `MemStorage.createWishlistItem`. -/
def MemStorage.createWishlistItem (s : MemStorage) (userId : Nat)
    (item : InsertWishlistItem) (now : Nat) : WishlistItem × MemStorage :=
  let id := s.currentWishlistItemId
  let wishlistItem : WishlistItem :=
    { id := id, userId := userId, name := item.name, description := item.description,
      price := item.price, category := item.category, priority := item.priority,
      storeLink := item.storeLink, imageUrl := item.imageUrl,
      isReserved := false, reservedByUserId := none, createdAt := now }
  (wishlistItem,
   { s with wishlistItems := JsMap.set s.wishlistItems id wishlistItem,
            currentWishlistItemId := id + 1 })

/-- Model of TypeScript `Partial<WishlistItem>`: each field optionally present.
The PUT route passes the raw request body here, so every field of the record
(including the reservation fields) may appear. -/
structure WishlistItemUpdates where
  id : Option Nat
  userId : Option Nat
  name : Option String
  description : Option (Option String)
  price : Option (Option Nat)
  category : Option (Option String)
  priority : Option String
  storeLink : Option (Option String)
  imageUrl : Option (Option String)
  isReserved : Option Bool
  reservedByUserId : Option (Option Nat)
  createdAt : Option Nat
  deriving Repr, DecidableEq

/-- Updates record with no field present. -/
def WishlistItemUpdates.none : WishlistItemUpdates :=
  { id := Option.none, userId := Option.none, name := Option.none,
    description := Option.none, price := Option.none, category := Option.none,
    priority := Option.none, storeLink := Option.none, imageUrl := Option.none,
    isReserved := Option.none, reservedByUserId := Option.none, createdAt := Option.none }

/-- Model of the JS spread `{ ...item, ...updates }`. -/
def applyUpdates (item : WishlistItem) (u : WishlistItemUpdates) : WishlistItem :=
  { id := u.id.getD item.id,
    userId := u.userId.getD item.userId,
    name := u.name.getD item.name,
    description := u.description.getD item.description,
    price := u.price.getD item.price,
    category := u.category.getD item.category,
    priority := u.priority.getD item.priority,
    storeLink := u.storeLink.getD item.storeLink,
    imageUrl := u.imageUrl.getD item.imageUrl,
    isReserved := u.isReserved.getD item.isReserved,
    reservedByUserId := u.reservedByUserId.getD item.reservedByUserId,
    createdAt := u.createdAt.getD item.createdAt }

/-- Model of `MemStorage.updateWishlistItem`: merge the updates over the
stored item with no validation at all. -/
def MemStorage.updateWishlistItem (s : MemStorage) (id : Nat)
    (updates : WishlistItemUpdates) : Option WishlistItem × MemStorage :=
  match JsMap.get s.wishlistItems id with
  | none => (none, s)
  | some item =>
    let updatedItem := applyUpdates item updates
    (some updatedItem, { s with wishlistItems := JsMap.set s.wishlistItems id updatedItem })

/-- Model of `MemStorage.deleteWishlistItem`. -/
def MemStorage.deleteWishlistItem (s : MemStorage) (id : Nat) : Bool × MemStorage :=
  (JsMap.has s.wishlistItems id,
   { s with wishlistItems := JsMap.delete s.wishlistItems id })

/-- Model of `MemStorage.reserveWishlistItem`: no precondition beyond
existence; it unconditionally overwrites the reservation fields. -/
def MemStorage.reserveWishlistItem (s : MemStorage) (id reservedByUserId : Nat) :
    Option WishlistItem × MemStorage :=
  match JsMap.get s.wishlistItems id with
  | none => (none, s)
  | some item =>
    let updatedItem : WishlistItem :=
      { item with isReserved := true, reservedByUserId := some reservedByUserId }
    (some updatedItem, { s with wishlistItems := JsMap.set s.wishlistItems id updatedItem })

/-- Model of `MemStorage.unreserveWishlistItem`. -/
def MemStorage.unreserveWishlistItem (s : MemStorage) (id : Nat) :
    Option WishlistItem × MemStorage :=
  match JsMap.get s.wishlistItems id with
  | none => (none, s)
  | some item =>
    let updatedItem : WishlistItem :=
      { item with isReserved := false, reservedByUserId := none }
    (some updatedItem, { s with wishlistItems := JsMap.set s.wishlistItems id updatedItem })

/-- Model of `MemStorage.createActivity`. -/
def MemStorage.createActivity (s : MemStorage) (activity : InsertActivity) (now : Nat) :
    Activity × MemStorage :=
  let id := s.currentActivityId
  let activityRecord : Activity :=
    { id := id, userId := activity.userId, familyGroupId := activity.familyGroupId,
      action := activity.action, itemName := activity.itemName,
      targetUserId := activity.targetUserId, createdAt := now }
  (activityRecord,
   { s with activities := JsMap.set s.activities id activityRecord,
            currentActivityId := id + 1 })

/-- Model of `MemStorage.getFamilyActivities`: filter by group, sort
newest-first by `createdAt`, cap at `limit` (`slice(0, limit)`). -/
def MemStorage.getFamilyActivities (s : MemStorage) (familyGroupId limit : Nat) :
    List Activity :=
  (sortDescBy Activity.createdAt
    ((JsMap.values s.activities).filter
      (fun activity => activity.familyGroupId == familyGroupId))).take limit

/-- Model of `MemStorage.getFamilyActivities` at its default limit of 10. -/
def MemStorage.getFamilyActivitiesDefault (s : MemStorage) (familyGroupId : Nat) :
    List Activity :=
  s.getFamilyActivities familyGroupId 10

/-- Model of `MemStorage.createSecretNote`. -/
def MemStorage.createSecretNote (s : MemStorage) (userId : Nat)
    (note : InsertSecretNote) (now : Nat) : SecretNote × MemStorage :=
  let id := s.currentSecretNoteId
  let secretNote : SecretNote :=
    { id := id, wishlistItemId := note.wishlistItemId, userId := userId,
      note := note.note, createdAt := now }
  (secretNote,
   { s with secretNotes := JsMap.set s.secretNotes id secretNote,
            currentSecretNoteId := id + 1 })

/-- Model of `MemStorage.getSecretNotes`: filters by item AND by the
requesting user (the note author). -/
def MemStorage.getSecretNotes (s : MemStorage) (wishlistItemId userId : Nat) :
    List SecretNote :=
  (JsMap.values s.secretNotes).filter
    (fun note => note.wishlistItemId == wishlistItemId && note.userId == userId)

/-- Model of `DatabaseStorage.getSecretNotes` over a row list: the SQL query
selects `where eq(secretNotes.wishlistItemId, wishlistItemId)` only — the
`userId` parameter is accepted but never used in the query. -/
def DatabaseStorage.getSecretNotes (table : List SecretNote)
    (wishlistItemId userId : Nat) : List SecretNote :=
  table.filter (fun note => note.wishlistItemId == wishlistItemId)

/-- Model of `DatabaseStorage.reserveWishlistItem` over a row list: SQL
`update ... set isReserved = true, reservedByUserId where eq(id) returning`;
the first returned row is the result. -/
def DatabaseStorage.reserveWishlistItem (table : List WishlistItem)
    (id reservedByUserId : Nat) : Option WishlistItem × List WishlistItem :=
  let updated := table.map (fun item =>
    if item.id == id then
      { item with isReserved := true, reservedByUserId := some reservedByUserId }
    else item)
  ((updated.filter (fun item => item.id == id)).head?, updated)

/-- Session entry (`SessionUser` in server/routes.ts): the denormalized user
snapshot stored in the `sessions` map. -/
structure SessionUser where
  id : Nat
  name : String
  email : Option String
  familyGroupId : Option Nat
  deriving Repr, DecidableEq

/-- Model of the `sessions : Map<string, SessionUser>` table. -/
abbrev Sessions : Type := List (String × SessionUser)

/-- Model of `sessions.set` (replace in place or append, like `JsMap.set`). -/
def Sessions.set (m : Sessions) (k : String) (v : SessionUser) : Sessions :=
  if m.any (fun p => p.1 == k) then
    m.map (fun p => if p.1 == k then (k, v) else p)
  else
    m ++ [(k, v)]

/-- Response of a route handler: `ok` is `res.json(body)` (HTTP 200), `err n m`
is `res.status(n).json({ message: m })`. -/
inductive ApiResponse (α : Type) where
  | ok : α → ApiResponse α
  | err : Nat → String → ApiResponse α
  deriving Repr, DecidableEq

/-- Model of `POST /api/family-groups/join` (routes.ts): look the group up by
invite code; on a miss answer 404 and touch nothing; on a hit update the user
record, refresh the session entry, and log `joined_group`. -/
def joinFamilyGroupRoute (s : MemStorage) (sessions : Sessions) (sessionId : String)
    (u : SessionUser) (inviteCode : String) (now : Nat) :
    ApiResponse FamilyGroup × MemStorage × Sessions :=
  match s.getFamilyGroupByInviteCode inviteCode with
  | none => (ApiResponse.err 404 "Invalid invite code", s, sessions)
  | some group =>
    let s1 := (s.updateUserFamilyGroup u.id group.id).2
    let u1 : SessionUser := { u with familyGroupId := some group.id }
    let sessions1 := Sessions.set sessions sessionId u1
    let s2 := (s1.createActivity
      { userId := u.id, familyGroupId := group.id, action := "joined_group",
        itemName := none, targetUserId := none } now).2
    (ApiResponse.ok group, s2, sessions1)

/-- Model of `POST /api/wishlist-items` (routes.ts): create the item; when the
actor's `familyGroupId` is truthy, also log `added_item`. -/
def createItemRoute (s : MemStorage) (u : SessionUser) (itemData : InsertWishlistItem)
    (now : Nat) : ApiResponse WishlistItem × MemStorage :=
  let item := (s.createWishlistItem u.id itemData now).1
  let s1 := (s.createWishlistItem u.id itemData now).2
  let s2 :=
    if optionNatFalsy u.familyGroupId then s1
    else (s1.createActivity
      { userId := u.id, familyGroupId := u.familyGroupId.getD 0, action := "added_item",
        itemName := some item.name, targetUserId := none } now).2
  (ApiResponse.ok item, s2)

/-- Model of `PUT /api/wishlist-items/:id` (routes.ts): 404 when missing, 403
when the requester is not the owner, else merge the raw request body over the
stored item — the body is not validated, so it may set any field. -/
def updateItemRoute (s : MemStorage) (u : SessionUser) (id : Nat)
    (updates : WishlistItemUpdates) : ApiResponse (Option WishlistItem) × MemStorage :=
  match s.getWishlistItem id with
  | none => (ApiResponse.err 404 "Item not found", s)
  | some existingItem =>
    if existingItem.userId != u.id then (ApiResponse.err 403 "Not authorized", s)
    else
      let r := s.updateWishlistItem id updates
      (ApiResponse.ok r.1, r.2)

/-- Model of `DELETE /api/wishlist-items/:id` (routes.ts): 404 when missing,
403 when the requester is NOT the owner, else delete. -/
def deleteItemRoute (s : MemStorage) (u : SessionUser) (id : Nat) :
    ApiResponse String × MemStorage :=
  match s.getWishlistItem id with
  | none => (ApiResponse.err 404 "Item not found", s)
  | some existingItem =>
    if existingItem.userId != u.id then (ApiResponse.err 403 "Not authorized", s)
    else
      let r := s.deleteWishlistItem id
      (ApiResponse.ok "Item deleted", r.2)

/-- Model of `POST /api/wishlist-items/:id/reserve` (routes.ts): 404 when
missing, 400 on self-reservation, 400 when already reserved; otherwise reserve
and, when the actor's `familyGroupId` is truthy, log `reserved_item` targeting
the item's owner. -/
def reserveRoute (s : MemStorage) (u : SessionUser) (id now : Nat) :
    ApiResponse (Option WishlistItem) × MemStorage :=
  match s.getWishlistItem id with
  | none => (ApiResponse.err 404 "Item not found", s)
  | some existingItem =>
    if existingItem.userId == u.id then
      (ApiResponse.err 400 "Cannot reserve your own item", s)
    else if existingItem.isReserved then
      (ApiResponse.err 400 "Item already reserved", s)
    else
      let item := (s.reserveWishlistItem id u.id).1
      let s1 := (s.reserveWishlistItem id u.id).2
      let s2 :=
        if optionNatFalsy u.familyGroupId then s1
        else (s1.createActivity
          { userId := u.id, familyGroupId := u.familyGroupId.getD 0,
            action := "reserved_item", itemName := item.map WishlistItem.name,
            targetUserId := some existingItem.userId } now).2
      (ApiResponse.ok item, s2)

/-- Model of `POST /api/wishlist-items/:id/unreserve` (routes.ts): 404 when
missing, 400 unless the item is reserved by the requester; on success clear
the reservation.  No activity is logged on this path. -/
def unreserveRoute (s : MemStorage) (u : SessionUser) (id : Nat) :
    ApiResponse (Option WishlistItem) × MemStorage :=
  match s.getWishlistItem id with
  | none => (ApiResponse.err 404 "Item not found", s)
  | some existingItem =>
    if !existingItem.isReserved || existingItem.reservedByUserId != some u.id then
      (ApiResponse.err 400 "Cannot unreserve this item", s)
    else
      let r := s.unreserveWishlistItem id
      (ApiResponse.ok r.1, r.2)

/-- Enriched activity returned by `GET /api/activities`: the record plus
`{id, name}` summaries of the actor and the target user. -/
structure UserSummary where
  id : Nat
  name : String
  deriving Repr, DecidableEq

/-- Activity plus actor/target summaries, as built by `GET /api/activities`. -/
structure EnrichedActivity where
  activity : Activity
  user : Option UserSummary
  targetUser : Option UserSummary
  deriving Repr, DecidableEq

/-- Enrichment step of `GET /api/activities`: `targetUserId ? getUser : null`
(JS truthiness on a `number | null`). -/
def enrichActivity (s : MemStorage) (a : Activity) : EnrichedActivity :=
  { activity := a,
    user := (s.getUser a.userId).map (fun v => { id := v.id, name := v.name }),
    targetUser :=
      if optionNatFalsy a.targetUserId then none
      else (s.getUser (a.targetUserId.getD 0)).map (fun v => { id := v.id, name := v.name }) }

/-- Model of `GET /api/activities` (routes.ts): when the session user's
`familyGroupId` is falsy the handler immediately answers `res.json([])`
without consulting the store; otherwise it reads the group's activities at
the default limit and enriches them. -/
def activitiesRoute (s : MemStorage) (u : SessionUser) :
    ApiResponse (List EnrichedActivity) :=
  if optionNatFalsy u.familyGroupId then ApiResponse.ok []
  else
    ApiResponse.ok
      ((s.getFamilyActivities (u.familyGroupId.getD 0) 10).map (enrichActivity s))

/-- Model of `POST /api/secret-notes` (routes.ts): 404 when the item is
missing, 400 when the requester owns the item, else create the note. -/
def createSecretNoteRoute (s : MemStorage) (u : SessionUser)
    (noteData : InsertSecretNote) (now : Nat) : ApiResponse SecretNote × MemStorage :=
  match s.getWishlistItem noteData.wishlistItemId with
  | none => (ApiResponse.err 404 "Item not found", s)
  | some item =>
    if item.userId == u.id then
      (ApiResponse.err 400 "Cannot add notes to your own items", s)
    else
      let r := s.createSecretNote u.id noteData now
      (ApiResponse.ok r.1, r.2)

/-- Fold of `MemStorage.createFamilyGroup` over a list of
(name, generated invite code) requests: an arbitrary sequence of group
creations, each with the code its `generateInviteCode` call produced. -/
def createGroups (s : MemStorage) (reqs : List (String × String)) (now : Nat) :
    MemStorage :=
  reqs.foldl (fun st r => (st.createFamilyGroup r.1 r.2 now).2) s

/-- Reservation-consistency invariant of the data model: `isReserved` is true
exactly when `reservedByUserId` is non-null. -/
def storeInv (s : MemStorage) : Prop :=
  ∀ it ∈ JsMap.values s.wishlistItems, it.isReserved = it.reservedByUserId.isSome

instance (s : MemStorage) : Decidable (storeInv s) := by
  unfold storeInv; infer_instance

theorem JsMap.get_mem_values {α : Type} {m : JsMap α} {k : Nat} {x : α}
    (h : JsMap.get m k = some x) : x ∈ JsMap.values m := by
  unfold JsMap.get at h
  cases hf : List.find? (fun p => p.1 == k) m with
  | none => rw [hf] at h; cases h
  | some p =>
    rw [hf] at h
    have hp : p ∈ m := List.mem_of_find?_eq_some hf
    have : p.2 = x := by simpa using h
    exact this ▸ List.mem_map_of_mem (fun q => q.2) hp

theorem JsMap.mem_values_set {α : Type} {m : JsMap α} {k : Nat} {v x : α}
    (hx : x ∈ JsMap.values (JsMap.set m k v)) : x = v ∨ x ∈ JsMap.values m := by
  unfold JsMap.set at hx
  by_cases h : m.any (fun p => p.1 == k)
  · rw [if_pos h] at hx
    unfold JsMap.values at hx ⊢
    rw [List.map_map] at hx
    simp only [List.mem_map, Function.comp] at hx
    obtain ⟨q, hq, hqx⟩ := hx
    by_cases hqk : (q.1 == k) = true
    · left; rw [← hqx]; simp [hqk]
    · right
      simp only [List.mem_map]
      exact ⟨q, hq, by rw [← hqx]; simp [hqk]⟩
  · rw [if_neg h] at hx
    unfold JsMap.values at hx ⊢
    simp only [List.map_append, List.mem_append, List.map_cons, List.map_nil,
      List.mem_singleton] at hx
    rcases hx with hx | hx
    · right; exact hx
    · left; exact hx

theorem JsMap.mem_values_delete {α : Type} {m : JsMap α} {k : Nat} {x : α}
    (hx : x ∈ JsMap.values (JsMap.delete m k)) : x ∈ JsMap.values m := by
  unfold JsMap.delete at hx
  unfold JsMap.values at hx ⊢
  simp only [List.mem_map] at hx ⊢
  obtain ⟨p, hp, hpx⟩ := hx
  exact ⟨p, (List.mem_filter.mp hp).1, hpx⟩

theorem JsMap.get_map_overwrite {α : Type} {m : JsMap α} {k : Nat} (v : α)
    (h : m.any (fun p => p.1 == k) = true) :
    JsMap.get (m.map (fun p => if p.1 == k then (k, v) else p)) k = some v := by
  induction m with
  | nil => cases h
  | cons p m ih =>
    rw [List.map_cons]
    by_cases hpk : (p.1 == k) = true
    · have h1 : (if (p.1 == k) = true then ((k, v) : Nat × α) else p) = (k, v) := by
        simp [hpk]
      unfold JsMap.get
      rw [h1, List.find?_cons_of_pos _ (by simp)]
      rfl
    · have h1 : (if (p.1 == k) = true then ((k, v) : Nat × α) else p) = p := by
        simp [hpk]
      have hm : m.any (fun p => p.1 == k) = true := by
        simpa [List.any_cons, hpk] using h
      have hrec := ih hm
      unfold JsMap.get at hrec ⊢
      rw [h1, List.find?_cons_of_neg _ (by simp [hpk])]
      exact hrec

theorem JsMap.get_append_fresh {α : Type} {m : JsMap α} {k : Nat} (v : α)
    (h : m.any (fun p => p.1 == k) = false) :
    JsMap.get (m ++ [(k, v)]) k = some v := by
  induction m with
  | nil => simp [JsMap.get]
  | cons p m ih =>
    have h' : (p.1 == k) = false ∧ m.any (fun p => p.1 == k) = false := by
      simpa [List.any_cons] using h
    have hrec := ih h'.2
    unfold JsMap.get at hrec ⊢
    simpa [h'.1] using hrec

theorem JsMap.get_set_self {α : Type} (m : JsMap α) (k : Nat) (v : α) :
    JsMap.get (JsMap.set m k v) k = some v := by
  unfold JsMap.set
  by_cases h : m.any (fun p => p.1 == k)
  · rw [if_pos h]; exact JsMap.get_map_overwrite v h
  · rw [if_neg h]; exact JsMap.get_append_fresh v (Bool.eq_false_iff.mpr h)

theorem JsMap.get_delete_self {α : Type} (m : JsMap α) (k : Nat) :
    JsMap.get (JsMap.delete m k) k = none := by
  unfold JsMap.get JsMap.delete
  have : List.find? (fun p => p.1 == k) (m.filter (fun p => p.1 != k)) = none := by
    rw [List.find?_eq_none]
    intro p hp
    have := (List.mem_filter.mp hp).2
    simp only [bne_iff_ne, ne_eq] at this
    simp [this]
  rw [this]
  rfl

theorem JsMap.values_set_fresh {α : Type} {m : JsMap α} {k : Nat} (v : α)
    (h : m.any (fun p => p.1 == k) = false) :
    JsMap.values (JsMap.set m k v) = JsMap.values m ++ [v] := by
  unfold JsMap.set JsMap.values
  rw [if_neg (Bool.eq_false_iff.mp h ∘ id)]
  simp

theorem insertDescBy_perm {α : Type} (key : α → Nat) (a : α) (l : List α) :
    (insertDescBy key a l).Perm (a :: l) := by
  induction l with
  | nil => simp [insertDescBy]
  | cons b l ih =>
    unfold insertDescBy
    by_cases h : key b < key a
    · rw [if_pos h]
    · rw [if_neg h]
      exact (ih.cons b).trans (List.Perm.swap a b l)

theorem insertDescBy_pairwise {α : Type} (key : α → Nat) (a : α) {l : List α}
    (h : l.Pairwise (fun x y => key y ≤ key x)) :
    (insertDescBy key a l).Pairwise (fun x y => key y ≤ key x) := by
  induction l with
  | nil => simp [insertDescBy]
  | cons b l ih =>
    rw [List.pairwise_cons] at h
    obtain ⟨hb, hl⟩ := h
    unfold insertDescBy
    by_cases hba : key b < key a
    · rw [if_pos hba]
      refine List.pairwise_cons.mpr ⟨?_, List.pairwise_cons.mpr ⟨hb, hl⟩⟩
      intro y hy
      rcases List.mem_cons.mp hy with rfl | hy'
      · exact Nat.le_of_lt hba
      · exact Nat.le_trans (hb y hy') (Nat.le_of_lt hba)
    · rw [if_neg hba]
      refine List.pairwise_cons.mpr ⟨?_, ih hl⟩
      intro y hy
      have hy' := (insertDescBy_perm key a l).mem_iff.mp hy
      rcases List.mem_cons.mp hy' with rfl | hy''
      · exact Nat.le_of_not_lt hba
      · exact hb y hy''

theorem foldl_insertDescBy_perm {α : Type} (key : α → Nat) (l : List α) :
    ∀ acc, (l.foldl (fun acc a => insertDescBy key a acc) acc).Perm (acc ++ l) := by
  induction l with
  | nil => intro acc; simp
  | cons a l ih =>
    intro acc
    simp only [List.foldl_cons]
    refine (ih (insertDescBy key a acc)).trans ?_
    refine (List.Perm.append_right l (insertDescBy_perm key a acc)).trans ?_
    exact List.perm_middle.symm

theorem foldl_insertDescBy_pairwise {α : Type} (key : α → Nat) (l : List α) :
    ∀ acc, acc.Pairwise (fun x y => key y ≤ key x) →
      (l.foldl (fun acc a => insertDescBy key a acc) acc).Pairwise
        (fun x y => key y ≤ key x) := by
  induction l with
  | nil => intro acc h; simpa using h
  | cons a l ih =>
    intro acc h
    simp only [List.foldl_cons]
    exact ih _ (insertDescBy_pairwise key a h)

theorem sortDescBy_perm {α : Type} (key : α → Nat) (l : List α) :
    (sortDescBy key l).Perm l := by
  have h := foldl_insertDescBy_perm key l []
  simpa [sortDescBy] using h

theorem sortDescBy_pairwise {α : Type} (key : α → Nat) (l : List α) :
    (sortDescBy key l).Pairwise (fun x y => key y ≤ key x) :=
  foldl_insertDescBy_pairwise key l [] List.Pairwise.nil

/-- Abbreviation for the item produced by a successful reserve. -/
def reservedItem (it : WishlistItem) (uid : Nat) : WishlistItem :=
  { it with isReserved := true, reservedByUserId := some uid }

/-- Abbreviation for the item produced by a successful unreserve. -/
def unreservedItem (it : WishlistItem) : WishlistItem :=
  { it with isReserved := false, reservedByUserId := none }

theorem reserveRoute_not_found {s : MemStorage} {u : SessionUser} {id now : Nat}
    (h : s.getWishlistItem id = none) :
    reserveRoute s u id now = (ApiResponse.err 404 "Item not found", s) := by
  unfold reserveRoute
  rw [h]

theorem reserveRoute_self {s : MemStorage} {u : SessionUser} {id now : Nat}
    {it : WishlistItem} (h : s.getWishlistItem id = some it) (hown : it.userId = u.id) :
    reserveRoute s u id now = (ApiResponse.err 400 "Cannot reserve your own item", s) := by
  unfold reserveRoute
  rw [h]
  simp [hown]

theorem reserveRoute_conflict {s : MemStorage} {u : SessionUser} {id now : Nat}
    {it : WishlistItem} (h : s.getWishlistItem id = some it) (hown : it.userId ≠ u.id)
    (hres : it.isReserved = true) :
    reserveRoute s u id now = (ApiResponse.err 400 "Item already reserved", s) := by
  unfold reserveRoute
  rw [h]
  simp [hown, hres]

theorem reserveRoute_success_falsy {s : MemStorage} {u : SessionUser} {id now : Nat}
    {it : WishlistItem} (h : s.getWishlistItem id = some it) (hown : it.userId ≠ u.id)
    (hres : it.isReserved = false) (hf : optionNatFalsy u.familyGroupId = true) :
    reserveRoute s u id now =
      (ApiResponse.ok (some (reservedItem it u.id)),
       { s with wishlistItems := JsMap.set s.wishlistItems id (reservedItem it u.id) }) := by
  have h' : JsMap.get s.wishlistItems id = some it := h
  unfold reserveRoute
  rw [h]
  unfold MemStorage.reserveWishlistItem
  rw [h']
  simp [hown, hres, hf, reservedItem]

theorem reserveRoute_success_truthy {s : MemStorage} {u : SessionUser} {id now : Nat}
    {it : WishlistItem} (h : s.getWishlistItem id = some it) (hown : it.userId ≠ u.id)
    (hres : it.isReserved = false) (hf : optionNatFalsy u.familyGroupId = false) :
    reserveRoute s u id now =
      (ApiResponse.ok (some (reservedItem it u.id)),
       (MemStorage.createActivity
         { s with wishlistItems := JsMap.set s.wishlistItems id (reservedItem it u.id) }
         { userId := u.id, familyGroupId := u.familyGroupId.getD 0,
           action := "reserved_item", itemName := some it.name,
           targetUserId := some it.userId } now).2) := by
  have h' : JsMap.get s.wishlistItems id = some it := h
  unfold reserveRoute
  rw [h]
  unfold MemStorage.reserveWishlistItem
  rw [h']
  simp [hown, hres, hf, reservedItem]

theorem unreserveRoute_not_found {s : MemStorage} {u : SessionUser} {id : Nat}
    (h : s.getWishlistItem id = none) :
    unreserveRoute s u id = (ApiResponse.err 404 "Item not found", s) := by
  unfold unreserveRoute
  rw [h]

theorem unreserveRoute_guard {s : MemStorage} {u : SessionUser} {id : Nat}
    {it : WishlistItem} (h : s.getWishlistItem id = some it)
    (hg : (!it.isReserved || it.reservedByUserId != some u.id) = true) :
    unreserveRoute s u id = (ApiResponse.err 400 "Cannot unreserve this item", s) := by
  unfold unreserveRoute
  rw [h]
  simp [hg]

theorem unreserveRoute_success {s : MemStorage} {u : SessionUser} {id : Nat}
    {it : WishlistItem} (h : s.getWishlistItem id = some it)
    (hres : it.isReserved = true) (hby : it.reservedByUserId = some u.id) :
    unreserveRoute s u id =
      (ApiResponse.ok (some (unreservedItem it)),
       { s with wishlistItems := JsMap.set s.wishlistItems id (unreservedItem it) }) := by
  have h' : JsMap.get s.wishlistItems id = some it := h
  unfold unreserveRoute
  rw [h]
  unfold MemStorage.unreserveWishlistItem
  rw [h']
  simp [hres, hby, unreservedItem]

theorem deleteItemRoute_not_found {s : MemStorage} {u : SessionUser} {id : Nat}
    (h : s.getWishlistItem id = none) :
    deleteItemRoute s u id = (ApiResponse.err 404 "Item not found", s) := by
  unfold deleteItemRoute
  rw [h]

theorem deleteItemRoute_not_owner {s : MemStorage} {u : SessionUser} {id : Nat}
    {it : WishlistItem} (h : s.getWishlistItem id = some it) (hown : it.userId ≠ u.id) :
    deleteItemRoute s u id = (ApiResponse.err 403 "Not authorized", s) := by
  unfold deleteItemRoute
  rw [h]
  simp [hown]

theorem deleteItemRoute_owner {s : MemStorage} {u : SessionUser} {id : Nat}
    {it : WishlistItem} (h : s.getWishlistItem id = some it) (hown : it.userId = u.id) :
    deleteItemRoute s u id =
      (ApiResponse.ok "Item deleted",
       { s with wishlistItems := JsMap.delete s.wishlistItems id }) := by
  unfold deleteItemRoute
  rw [h]
  simp [hown, MemStorage.deleteWishlistItem]

theorem updateItemRoute_not_found {s : MemStorage} {u : SessionUser} {id : Nat}
    {upd : WishlistItemUpdates} (h : s.getWishlistItem id = none) :
    updateItemRoute s u id upd = (ApiResponse.err 404 "Item not found", s) := by
  unfold updateItemRoute
  rw [h]

theorem updateItemRoute_not_owner {s : MemStorage} {u : SessionUser} {id : Nat}
    {upd : WishlistItemUpdates} {it : WishlistItem}
    (h : s.getWishlistItem id = some it) (hown : it.userId ≠ u.id) :
    updateItemRoute s u id upd = (ApiResponse.err 403 "Not authorized", s) := by
  unfold updateItemRoute
  rw [h]
  simp [hown]

theorem updateItemRoute_owner {s : MemStorage} {u : SessionUser} {id : Nat}
    {upd : WishlistItemUpdates} {it : WishlistItem}
    (h : s.getWishlistItem id = some it) (hown : it.userId = u.id) :
    updateItemRoute s u id upd =
      (ApiResponse.ok (some (applyUpdates it upd)),
       { s with wishlistItems := JsMap.set s.wishlistItems id (applyUpdates it upd) }) := by
  have h' : JsMap.get s.wishlistItems id = some it := h
  unfold updateItemRoute
  rw [h]
  unfold MemStorage.updateWishlistItem
  rw [h']
  simp [hown]

theorem createSecretNoteRoute_not_found {s : MemStorage} {u : SessionUser}
    {noteData : InsertSecretNote} {now : Nat}
    (h : s.getWishlistItem noteData.wishlistItemId = none) :
    createSecretNoteRoute s u noteData now = (ApiResponse.err 404 "Item not found", s) := by
  unfold createSecretNoteRoute
  rw [h]

theorem createSecretNoteRoute_owner {s : MemStorage} {u : SessionUser}
    {noteData : InsertSecretNote} {now : Nat} {it : WishlistItem}
    (h : s.getWishlistItem noteData.wishlistItemId = some it) (hown : it.userId = u.id) :
    createSecretNoteRoute s u noteData now =
      (ApiResponse.err 400 "Cannot add notes to your own items", s) := by
  unfold createSecretNoteRoute
  rw [h]
  simp [hown]

theorem createItemRoute_wishlistItems (s : MemStorage) (u : SessionUser)
    (itemData : InsertWishlistItem) (now : Nat) :
    (createItemRoute s u itemData now).2.wishlistItems =
      JsMap.set s.wishlistItems s.currentWishlistItemId
        (s.createWishlistItem u.id itemData now).1 := by
  unfold createItemRoute
  by_cases hf : optionNatFalsy u.familyGroupId = true
  · simp [hf, MemStorage.createWishlistItem]
  · simp [hf, MemStorage.createWishlistItem, MemStorage.createActivity]

/-- Concrete user: Alice, member of group 1, owner of the example item. -/
def alice : User :=
  { id := 1, name := "Alice", email := some "alice@example.com", password := "pw1",
    familyGroupId := some 1 }

/-- Concrete user: Bob, member of group 1. -/
def bob : User :=
  { id := 2, name := "Bob", email := some "bob@example.com", password := "pw2",
    familyGroupId := some 1 }

/-- Concrete family group used by the witnesses. -/
def groupSmith : FamilyGroup :=
  { id := 1, name := "Smith", inviteCode := "K4J9QZ", createdAt := 0 }

/-- Concrete open wishlist item owned by Alice (user 1). -/
def itemBike : WishlistItem :=
  { id := 1, userId := 1, name := "Bike", description := none, price := some 2000,
    category := none, priority := "medium", storeLink := none, imageUrl := none,
    isReserved := false, reservedByUserId := none, createdAt := 0 }

/-- The example item after Bob reserved it. -/
def itemBikeReserved : WishlistItem :=
  { itemBike with isReserved := true, reservedByUserId := some 2 }

/-- Concrete store: Alice and Bob in group 1, Alice's open item number 1. -/
def storeOpen : MemStorage :=
  { users := [(1, alice), (2, bob)], familyGroups := [(1, groupSmith)],
    wishlistItems := [(1, itemBike)], activities := [], secretNotes := [],
    currentUserId := 3, currentFamilyGroupId := 2, currentWishlistItemId := 2,
    currentActivityId := 1, currentSecretNoteId := 1 }

/-- Concrete store: like `storeOpen` but with the item reserved by Bob. -/
def storeReserved : MemStorage :=
  { storeOpen with wishlistItems := [(1, itemBikeReserved)] }

/-- Session snapshot for Alice (the item owner). -/
def sessionAlice : SessionUser :=
  { id := 1, name := "Alice", email := some "alice@example.com", familyGroupId := some 1 }

/-- Session snapshot for Bob. -/
def sessionBob : SessionUser :=
  { id := 2, name := "Bob", email := some "bob@example.com", familyGroupId := some 1 }

/-- Session snapshot for Bob before joining any group. -/
def sessionBobNoGroup : SessionUser :=
  { sessionBob with familyGroupId := none }

/-- Session snapshot for a third member, Carol. -/
def sessionCarol : SessionUser :=
  { id := 3, name := "Carol", email := none, familyGroupId := some 1 }

/-- Claim C1: the reserve route succeeds exactly when the item exists, the
requester is not its owner, and it is not already reserved; on success it sets
`isReserved := true` and `reservedByUserId := u`; an owner gets the
self-reservation 400, an already-reserved item gets the conflict 400, and a
second immediate reserve (by any non-owner, in particular the same actor)
fails with the conflict and leaves the state — hence the activity log —
untouched. -/
theorem reserve_route_spec (s : MemStorage) (u : SessionUser) (id now : Nat) :
    ((∃ r, (reserveRoute s u id now).1 = ApiResponse.ok r) ↔
      (∃ it, s.getWishlistItem id = some it ∧ it.userId ≠ u.id ∧ it.isReserved = false))
    ∧ (s.getWishlistItem id = none →
        reserveRoute s u id now = (ApiResponse.err 404 "Item not found", s))
    ∧ (∀ it, s.getWishlistItem id = some it → it.userId = u.id →
        reserveRoute s u id now = (ApiResponse.err 400 "Cannot reserve your own item", s))
    ∧ (∀ it, s.getWishlistItem id = some it → it.userId ≠ u.id → it.isReserved = true →
        reserveRoute s u id now = (ApiResponse.err 400 "Item already reserved", s))
    ∧ (∀ it, s.getWishlistItem id = some it → it.userId ≠ u.id → it.isReserved = false →
        (reserveRoute s u id now).1 = ApiResponse.ok (some (reservedItem it u.id))
        ∧ (reserveRoute s u id now).2.getWishlistItem id = some (reservedItem it u.id)
        ∧ (∀ u2 now2, u2.id ≠ it.userId →
            reserveRoute (reserveRoute s u id now).2 u2 id now2 =
              (ApiResponse.err 400 "Item already reserved", (reserveRoute s u id now).2))) := by
  have hsucc : ∀ it, s.getWishlistItem id = some it → it.userId ≠ u.id →
      it.isReserved = false →
      (reserveRoute s u id now).1 = ApiResponse.ok (some (reservedItem it u.id))
      ∧ (reserveRoute s u id now).2.getWishlistItem id = some (reservedItem it u.id) := by
    intro it hit hown hres
    by_cases hf : optionNatFalsy u.familyGroupId = true
    · rw [reserveRoute_success_falsy hit hown hres hf]
      exact ⟨rfl, JsMap.get_set_self s.wishlistItems id (reservedItem it u.id)⟩
    · rw [reserveRoute_success_truthy hit hown hres (Bool.eq_false_iff.mpr hf)]
      exact ⟨rfl, JsMap.get_set_self s.wishlistItems id (reservedItem it u.id)⟩
  refine ⟨?_, ?_, ?_, ?_, ?_⟩
  · constructor
    · rintro ⟨r, hr⟩
      cases hget : s.getWishlistItem id with
      | none =>
        rw [reserveRoute_not_found hget] at hr
        cases hr
      | some it =>
        by_cases hown : it.userId = u.id
        · rw [reserveRoute_self hget hown] at hr
          cases hr
        · by_cases hres : it.isReserved = true
          · rw [reserveRoute_conflict hget hown hres] at hr
            cases hr
          · exact ⟨it, rfl, hown, Bool.eq_false_iff.mpr hres⟩
    · rintro ⟨it, hget, hown, hres⟩
      exact ⟨some (reservedItem it u.id), (hsucc it hget hown hres).1⟩
  · intro hget
    exact reserveRoute_not_found hget
  · intro it hget hown
    exact reserveRoute_self hget hown
  · intro it hget hown hres
    exact reserveRoute_conflict hget hown hres
  · intro it hget hown hres
    refine ⟨(hsucc it hget hown hres).1, (hsucc it hget hown hres).2, ?_⟩
    intro u2 now2 hu2
    have hget2 : (reserveRoute s u id now).2.getWishlistItem id =
        some (reservedItem it u.id) := (hsucc it hget hown hres).2
    have hown2 : (reservedItem it u.id).userId ≠ u2.id := by
      simp only [reservedItem]
      exact fun hen => hu2 hen.symm
    exact reserveRoute_conflict hget2 hown2 rfl

/-- Witness for C1: in the concrete two-user store, Bob's reserve of Alice's
open item succeeds and flips the reservation fields. -/
theorem reserve_route_spec_witness :
    (reserveRoute storeOpen sessionBob 1 5).1 =
      ApiResponse.ok (some (reservedItem itemBike 2))
    ∧ (reserveRoute storeOpen sessionBob 1 5).2.getWishlistItem 1 =
      some (reservedItem itemBike 2)
    ∧ reserveRoute (reserveRoute storeOpen sessionBob 1 5).2 sessionBob 1 6 =
      (ApiResponse.err 400 "Item already reserved", (reserveRoute storeOpen sessionBob 1 5).2) := by
  have h := (reserve_route_spec storeOpen sessionBob 1 5).2.2.2.2 itemBike (by decide)
    (by decide) (by decide)
  exact ⟨h.1, h.2.1, h.2.2 sessionBob 6 (by decide)⟩

/-- PUT body `{ isReserved: true }`: a legal `Partial<WishlistItem>` request
body touching only the `isReserved` flag. -/
def breakingUpdates : WishlistItemUpdates :=
  { WishlistItemUpdates.none with isReserved := some true }

/-- Counterexample to C2: the invariant holds in `storeOpen`, yet after the
owner PUTs the body `{ isReserved: true }` on her own open item (the route
merges the raw body without validation) the stored item has
`isReserved = true` with `reservedByUserId = null`. -/
theorem update_route_breaks_reservation_invariant :
    storeInv storeOpen
    ∧ ¬ storeInv (updateItemRoute storeOpen sessionAlice 1 breakingUpdates).2 :=
  ⟨by decide, by decide⟩

/-- Claim C2 (amended): `isReserved == (reservedByUserId != null)` is
preserved by create, delete, reserve, and unreserve, and by a PUT whose body
does not mention the reservation fields; a PUT body that does mention them is
merged unvalidated and can break the invariant. -/
theorem reservation_invariant_preserved (s : MemStorage) (hs : storeInv s) :
    (∀ u itemData now, storeInv (createItemRoute s u itemData now).2)
    ∧ (∀ u id, storeInv (deleteItemRoute s u id).2)
    ∧ (∀ u id now, storeInv (reserveRoute s u id now).2)
    ∧ (∀ u id, storeInv (unreserveRoute s u id).2)
    ∧ (∀ u id upd, upd.isReserved = none → upd.reservedByUserId = none →
        storeInv (updateItemRoute s u id upd).2) := by
  refine ⟨?_, ?_, ?_, ?_, ?_⟩
  · intro u itemData now
    intro it hit
    rw [createItemRoute_wishlistItems] at hit
    rcases JsMap.mem_values_set hit with rfl | hmem
    · simp [MemStorage.createWishlistItem]
    · exact hs it hmem
  · intro u id
    cases hget : s.getWishlistItem id with
    | none => rw [deleteItemRoute_not_found hget]; exact hs
    | some it =>
      by_cases hown : it.userId = u.id
      · rw [deleteItemRoute_owner hget hown]
        intro x hx
        exact hs x (JsMap.mem_values_delete hx)
      · rw [deleteItemRoute_not_owner hget hown]; exact hs
  · intro u id now
    cases hget : s.getWishlistItem id with
    | none => rw [reserveRoute_not_found hget]; exact hs
    | some it =>
      by_cases hown : it.userId = u.id
      · rw [reserveRoute_self hget hown]; exact hs
      · by_cases hres : it.isReserved = true
        · rw [reserveRoute_conflict hget hown hres]; exact hs
        · have hres' : it.isReserved = false := Bool.eq_false_iff.mpr hres
          have hstep : ∀ x, x ∈ JsMap.values
              (JsMap.set s.wishlistItems id (reservedItem it u.id)) →
              x.isReserved = x.reservedByUserId.isSome := by
            intro x hx
            rcases JsMap.mem_values_set hx with rfl | hmem
            · simp [reservedItem]
            · exact hs x hmem
          by_cases hf : optionNatFalsy u.familyGroupId = true
          · rw [reserveRoute_success_falsy hget hown hres' hf]
            exact hstep
          · rw [reserveRoute_success_truthy hget hown hres' (Bool.eq_false_iff.mpr hf)]
            intro x hx
            exact hstep x hx
  · intro u id
    cases hget : s.getWishlistItem id with
    | none => rw [unreserveRoute_not_found hget]; exact hs
    | some it =>
      by_cases hres : it.isReserved = true
      · by_cases hby : it.reservedByUserId = some u.id
        · rw [unreserveRoute_success hget hres hby]
          intro x hx
          rcases JsMap.mem_values_set hx with rfl | hmem
          · simp [unreservedItem]
          · exact hs x hmem
        · rw [unreserveRoute_guard hget (by simp [hby])]; exact hs
      · rw [unreserveRoute_guard hget (by simp [Bool.eq_false_iff.mpr hres])]; exact hs
  · intro u id upd h1 h2
    cases hget : s.getWishlistItem id with
    | none => rw [updateItemRoute_not_found hget]; exact hs
    | some it =>
      by_cases hown : it.userId = u.id
      · rw [updateItemRoute_owner hget hown]
        intro x hx
        rcases JsMap.mem_values_set hx with rfl | hmem
        · have hmemit : it ∈ JsMap.values s.wishlistItems := JsMap.get_mem_values hget
          have := hs it hmemit
          simpa [applyUpdates, h1, h2] using this
        · exact hs x hmem
      · rw [updateItemRoute_not_owner hget hown]; exact hs

/-- Witness for the amended C2: in the concrete store the invariant survives
Bob's reserve and an owner PUT whose body touches no reservation field. -/
theorem reservation_invariant_preserved_witness :
    storeInv (reserveRoute storeOpen sessionBob 1 5).2
    ∧ storeInv (updateItemRoute storeOpen sessionAlice 1 WishlistItemUpdates.none).2 := by
  have h := reservation_invariant_preserved storeOpen (by decide)
  exact ⟨h.2.2.1 sessionBob 1 5, h.2.2.2.2 sessionAlice 1 WishlistItemUpdates.none rfl rfl⟩

/-- Counterexample to C3: deletion of one's OWN item is the one delete the
route permits — Alice deletes her own item 1 successfully and the item is
gone, so the owner's delete does succeed and does change state. -/
theorem owner_delete_succeeds :
    (deleteItemRoute storeOpen sessionAlice 1).1 = ApiResponse.ok "Item deleted"
    ∧ (deleteItemRoute storeOpen sessionAlice 1).2.getWishlistItem 1 = none := by
  decide

/-- Claim C3 (amended): for an item owned by the requester, reserve and
secret-note-attach always fail with a 400 and leave the state unchanged, and
unreserve fails whenever the requester is not the recorded reserver (through
the API an owner never is, since reserve rejects owners); delete, by
contrast, is exactly the owner's privilege and succeeds. -/
theorem own_item_action_guards (s : MemStorage) (u : SessionUser) (id now : Nat)
    (it : WishlistItem) (hit : s.getWishlistItem id = some it) (hown : it.userId = u.id) :
    reserveRoute s u id now = (ApiResponse.err 400 "Cannot reserve your own item", s)
    ∧ (∀ txt, createSecretNoteRoute s u { wishlistItemId := id, note := txt } now =
        (ApiResponse.err 400 "Cannot add notes to your own items", s))
    ∧ (it.reservedByUserId ≠ some u.id →
        unreserveRoute s u id = (ApiResponse.err 400 "Cannot unreserve this item", s))
    ∧ (deleteItemRoute s u id).1 = ApiResponse.ok "Item deleted"
    ∧ (deleteItemRoute s u id).2.getWishlistItem id = none := by
  refine ⟨reserveRoute_self hit hown, ?_, ?_, ?_, ?_⟩
  · intro txt
    exact createSecretNoteRoute_owner hit hown
  · intro hby
    exact unreserveRoute_guard hit (by simp [hby])
  · rw [deleteItemRoute_owner hit hown]
  · rw [deleteItemRoute_owner hit hown]
    exact JsMap.get_delete_self s.wishlistItems id

/-- Witness for the amended C3: Alice against her own item in the concrete
store — reserve, note, and unreserve all fail in place; delete succeeds. -/
theorem own_item_action_guards_witness :
    reserveRoute storeOpen sessionAlice 1 9 =
      (ApiResponse.err 400 "Cannot reserve your own item", storeOpen)
    ∧ createSecretNoteRoute storeOpen sessionAlice { wishlistItemId := 1, note := "hi" } 9 =
      (ApiResponse.err 400 "Cannot add notes to your own items", storeOpen)
    ∧ unreserveRoute storeOpen sessionAlice 1 =
      (ApiResponse.err 400 "Cannot unreserve this item", storeOpen)
    ∧ (deleteItemRoute storeOpen sessionAlice 1).1 = ApiResponse.ok "Item deleted" := by
  have h := own_item_action_guards storeOpen sessionAlice 1 9 itemBike (by decide) (by decide)
  exact ⟨h.1, h.2.1 "hi", h.2.2.1 (by decide), h.2.2.2.1⟩

/-- Counterexample to C4: Bob's unreserve of Alice's item succeeds while
Alice (the owner) belongs to family group 1, yet the activity log stays
empty — no `reserved_item` record is appended for the unreserve transition. -/
theorem unreserve_appends_no_activity :
    (unreserveRoute storeReserved sessionBob 1).1 = ApiResponse.ok (some itemBike)
    ∧ (unreserveRoute storeReserved sessionBob 1).2.activities = storeReserved.activities
    ∧ storeReserved.activities = [] := by
  decide

/-- Claim C4 (amended): only a successful reserve logs, and the gate is the
ACTOR's `familyGroupId`, not the owner's membership: when the actor's group is
truthy exactly one `reserved_item` activity (with `targetUserId` = the item's
owner) is appended; with no group the reserve appends nothing; a successful
unreserve never appends an activity. -/
theorem reservation_activity_logging (s : MemStorage) (u : SessionUser) (id now : Nat) :
    (∀ it g, s.getWishlistItem id = some it → it.userId ≠ u.id → it.isReserved = false →
      u.familyGroupId = some g → g ≠ 0 →
      JsMap.has s.activities s.currentActivityId = false →
      JsMap.values (reserveRoute s u id now).2.activities =
        JsMap.values s.activities ++
          [{ id := s.currentActivityId, userId := u.id, familyGroupId := g,
             action := "reserved_item", itemName := some it.name,
             targetUserId := some it.userId, createdAt := now }])
    ∧ (∀ it, s.getWishlistItem id = some it → it.userId ≠ u.id → it.isReserved = false →
        u.familyGroupId = none →
        (reserveRoute s u id now).2.activities = s.activities)
    ∧ (∀ it, s.getWishlistItem id = some it → it.isReserved = true →
        it.reservedByUserId = some u.id →
        (unreserveRoute s u id).1 = ApiResponse.ok (some (unreservedItem it))
        ∧ (unreserveRoute s u id).2.activities = s.activities) := by
  refine ⟨?_, ?_, ?_⟩
  · intro it g hit hown hres hg hg0 hfresh
    have hf : optionNatFalsy u.familyGroupId = false := by
      simp [optionNatFalsy, hg, hg0]
    rw [reserveRoute_success_truthy hit hown hres hf]
    simp only [MemStorage.createActivity, hg, Option.getD_some]
    exact JsMap.values_set_fresh _ hfresh
  · intro it hit hown hres hg
    have hf : optionNatFalsy u.familyGroupId = true := by
      simp [optionNatFalsy, hg]
    rw [reserveRoute_success_falsy hit hown hres hf]
  · intro it hit hres hby
    rw [unreserveRoute_success hit hres hby]
    exact ⟨rfl, rfl⟩

/-- Witness for the amended C4: in the concrete store Bob's reserve appends
exactly the one `reserved_item` record targeting Alice, and Bob's unreserve
of the reserved store leaves the activity log untouched. -/
theorem reservation_activity_logging_witness :
    JsMap.values (reserveRoute storeOpen sessionBob 1 7).2.activities =
      JsMap.values storeOpen.activities ++
        [{ id := 1, userId := 2, familyGroupId := 1, action := "reserved_item",
           itemName := some "Bike", targetUserId := some 1, createdAt := 7 }]
    ∧ (unreserveRoute storeReserved sessionBob 1).2.activities = storeReserved.activities := by
  have h := reservation_activity_logging storeOpen sessionBob 1 7
  have h2 := reservation_activity_logging storeReserved sessionBob 1 7
  exact ⟨h.1 itemBike 1 (by decide) (by decide) (by decide) (by decide) (by decide)
      (by decide),
    (h2.2.2 itemBikeReserved (by decide) (by decide) (by decide)).2⟩

/-- Concrete note by Bob (user 2) on item 1. -/
def noteFromBob : SecretNote :=
  { id := 1, wishlistItemId := 1, userId := 2, note := "idea", createdAt := 0 }

/-- Concrete note by Carol (user 3) on the same item 1. -/
def noteFromCarol : SecretNote :=
  { id := 2, wishlistItemId := 1, userId := 3, note := "other idea", createdAt := 1 }

/-- Concrete store holding notes by two different authors on item 1. -/
def storeNotes : MemStorage :=
  { storeOpen with
    secretNotes := [(1, noteFromBob), (2, noteFromCarol)]
    currentSecretNoteId := 3 }

/-- Counterexample to C5: on the same note rows, `MemStorage.getSecretNotes`
for requester Bob returns only Bob's note while `DatabaseStorage.getSecretNotes`
returns every note on the item, so the two implementations disagree. -/
theorem getSecretNotes_impls_disagree :
    MemStorage.getSecretNotes storeNotes 1 2 ≠
      DatabaseStorage.getSecretNotes (JsMap.values storeNotes.secretNotes) 1 2 := by
  decide

/-- Claim C5 (amended): the two `getSecretNotes` implementations are NOT
observably equal — over the same rows the in-memory result is exactly the
SQL-backed result restricted to notes authored by the requesting user, so
they agree only when every note on the item is the requester's own. -/
theorem getSecretNotes_mem_refines_db (s : MemStorage) (wishlistItemId userId : Nat) :
    MemStorage.getSecretNotes s wishlistItemId userId =
      (DatabaseStorage.getSecretNotes (JsMap.values s.secretNotes) wishlistItemId userId).filter
        (fun n => n.userId == userId) := by
  unfold MemStorage.getSecretNotes DatabaseStorage.getSecretNotes
  rw [List.filter_filter]
  apply List.filter_congr
  intro a _
  exact Bool.and_comm _ _

/-- Counterexample to C6: two `createFamilyGroup` calls whose generated codes
happen to coincide (a possible outcome of `generateInviteCode`, which never
checks for collisions) leave two distinct groups sharing one invite code. -/
theorem duplicate_invite_codes_possible :
    ¬ (JsMap.values (createGroups MemStorage.empty
        [("Smith", "K4J9QZ"), ("Jones", "K4J9QZ")] 0).familyGroups).Pairwise
      (fun g1 g2 => g1.inviteCode ≠ g2.inviteCode) := by
  decide

theorem createGroups_unique_aux (reqs : List (String × String)) :
    ∀ s : MemStorage,
      (JsMap.values s.familyGroups).Pairwise (fun g1 g2 => g1.inviteCode ≠ g2.inviteCode) →
      (∀ r ∈ reqs, ∀ g ∈ JsMap.values s.familyGroups, g.inviteCode ≠ r.2) →
      reqs.Pairwise (fun a b => a.2 ≠ b.2) →
      (∀ p ∈ s.familyGroups, p.1 < s.currentFamilyGroupId) →
      ∀ now : Nat,
      (JsMap.values (createGroups s reqs now).familyGroups).Pairwise
        (fun g1 g2 => g1.inviteCode ≠ g2.inviteCode) := by
  induction reqs with
  | nil =>
    intro s h1 _ _ _ now
    exact h1
  | cons r rs ih =>
    intro s h1 h2 h3 h4 now
    have hstep : createGroups s (r :: rs) now =
        createGroups (s.createFamilyGroup r.1 r.2 now).2 rs now := rfl
    rw [hstep]
    have hhas : s.familyGroups.any (fun p => p.1 == s.currentFamilyGroupId) = false := by
      rw [Bool.eq_false_iff]
      intro hany
      obtain ⟨p, hp, hpk⟩ := List.any_eq_true.mp hany
      have hlt := h4 p hp
      have : p.1 = s.currentFamilyGroupId := by simpa using hpk
      omega
    have hset : (s.createFamilyGroup r.1 r.2 now).2.familyGroups =
        s.familyGroups ++ [(s.currentFamilyGroupId,
          { id := s.currentFamilyGroupId, name := r.1, inviteCode := r.2,
            createdAt := now })] := by
      show JsMap.set s.familyGroups s.currentFamilyGroupId _ = _
      unfold JsMap.set
      rw [if_neg (by simp [hhas])]
    have hvals : JsMap.values (s.createFamilyGroup r.1 r.2 now).2.familyGroups =
        JsMap.values s.familyGroups ++
          [{ id := s.currentFamilyGroupId, name := r.1, inviteCode := r.2,
             createdAt := now }] := by
      rw [hset]
      simp [JsMap.values]
    apply ih
    · rw [hvals]
      rw [List.pairwise_append]
      refine ⟨h1, List.pairwise_singleton _ _, ?_⟩
      intro g hg g' hg'
      rw [List.mem_singleton] at hg'
      subst hg'
      exact h2 r (List.mem_cons_self r rs) g hg
    · intro r' hr' g hg
      rw [hvals] at hg
      rcases List.mem_append.mp hg with hg | hg
      · exact h2 r' (List.mem_cons_of_mem r hr') g hg
      · rw [List.mem_singleton] at hg
        subst hg
        exact (List.pairwise_cons.mp h3).1 r' hr'
    · exact (List.pairwise_cons.mp h3).2
    · intro p hp
      rw [hset] at hp
      have hcur : (s.createFamilyGroup r.1 r.2 now).2.currentFamilyGroupId =
          s.currentFamilyGroupId + 1 := rfl
      rw [hcur]
      rcases List.mem_append.mp hp with hp | hp
      · exact Nat.lt_succ_of_lt (h4 p hp)
      · rw [List.mem_singleton] at hp
        subst hp
        exact Nat.lt_succ_self _

/-- Claim C6 (amended): `createFamilyGroup` never re-checks codes, so
invite-code uniqueness holds after a sequence of group creations exactly for
those generator outcomes whose codes are pairwise distinct; under that
assumption every pair of groups in the resulting store has distinct codes. -/
theorem createGroups_codes_unique (reqs : List (String × String)) (now : Nat)
    (hdist : reqs.Pairwise (fun a b => a.2 ≠ b.2)) :
    (JsMap.values (createGroups MemStorage.empty reqs now).familyGroups).Pairwise
      (fun g1 g2 => g1.inviteCode ≠ g2.inviteCode) := by
  apply createGroups_unique_aux reqs MemStorage.empty
  · simp [MemStorage.empty, JsMap.values]
  · intro r _ g hg
    simp [MemStorage.empty, JsMap.values] at hg
  · exact hdist
  · intro p hp
    simp [MemStorage.empty] at hp

/-- Witness for the amended C6: two creations with distinct generated codes
yield pairwise-distinct invite codes. -/
theorem createGroups_codes_unique_witness :
    (JsMap.values (createGroups MemStorage.empty
      [("Smith", "AAA111"), ("Jones", "BBB222")] 0).familyGroups).Pairwise
      (fun g1 g2 => g1.inviteCode ≠ g2.inviteCode) :=
  createGroups_codes_unique [("Smith", "AAA111"), ("Jones", "BBB222")] 0 (by decide)

/-- Claim C7: joining with an invite code matching no group answers 404 and
returns the store and the session table exactly as they were — hence the
user's `familyGroupId` (record and session snapshot) is unchanged and no
activity is appended. -/
theorem join_invalid_code_noop (s : MemStorage) (sessions : Sessions) (sid : String)
    (u : SessionUser) (code : String) (now : Nat)
    (hcode : s.getFamilyGroupByInviteCode code = none) :
    joinFamilyGroupRoute s sessions sid u code now =
      (ApiResponse.err 404 "Invalid invite code", s, sessions) := by
  unfold joinFamilyGroupRoute
  rw [hcode]

/-- Witness for C7: the concrete store knows only code `K4J9QZ`, so joining
with `WRONG1` is a 404 no-op. -/
theorem join_invalid_code_noop_witness :
    joinFamilyGroupRoute storeOpen [("tok", sessionBobNoGroup)] "tok"
        sessionBobNoGroup "WRONG1" 3 =
      (ApiResponse.err 404 "Invalid invite code", storeOpen,
       [("tok", sessionBobNoGroup)]) :=
  join_invalid_code_noop storeOpen [("tok", sessionBobNoGroup)] "tok"
    sessionBobNoGroup "WRONG1" 3 (by decide)

/-- Claim C8: `getWishlistItems` returns exactly the user's items, sorted
newest-first by `createdAt`; `getFamilyActivities` returns at most `limit`
activities of the group, sorted newest-first, and its default limit is 10. -/
theorem list_queries_sorted_and_capped (s : MemStorage) (userId g limit : Nat) :
    (s.getWishlistItems userId).Perm
      ((JsMap.values s.wishlistItems).filter (fun item => item.userId == userId))
    ∧ (s.getWishlistItems userId).Pairwise (fun a b => b.createdAt ≤ a.createdAt)
    ∧ (s.getFamilyActivities g limit).length ≤ limit
    ∧ (s.getFamilyActivities g limit).Pairwise (fun a b => b.createdAt ≤ a.createdAt)
    ∧ (∀ a ∈ s.getFamilyActivities g limit,
        a ∈ (JsMap.values s.activities).filter (fun x => x.familyGroupId == g))
    ∧ s.getFamilyActivitiesDefault g = s.getFamilyActivities g 10 := by
  refine ⟨sortDescBy_perm _ _, sortDescBy_pairwise _ _, ?_, ?_, ?_, rfl⟩
  · exact List.length_take_le limit _
  · exact List.Pairwise.sublist (List.take_sublist _ _) (sortDescBy_pairwise _ _)
  · intro a ha
    have ha' := List.mem_of_mem_take ha
    exact (sortDescBy_perm Activity.createdAt _).mem_iff.mp ha'

/-- Claim C9: the storage-level reserve enforces nothing beyond existence —
for every stored item, whatever its current reservation state or owner, both
implementations overwrite `isReserved`/`reservedByUserId` unconditionally, so
a direct store call can silently steal an existing reservation. -/
theorem store_reserve_unconditional (s : MemStorage) (dbTable : List WishlistItem)
    (id uid : Nat) :
    (∀ it, s.getWishlistItem id = some it →
      s.reserveWishlistItem id uid =
        (some (reservedItem it uid),
         { s with wishlistItems := JsMap.set s.wishlistItems id (reservedItem it uid) }))
    ∧ (s.getWishlistItem id = none → s.reserveWishlistItem id uid = (none, s))
    ∧ (∀ it ∈ (DatabaseStorage.reserveWishlistItem dbTable id uid).2,
        it.id = id → it.isReserved = true ∧ it.reservedByUserId = some uid) := by
  refine ⟨?_, ?_, ?_⟩
  · intro it hit
    have h' : JsMap.get s.wishlistItems id = some it := hit
    unfold MemStorage.reserveWishlistItem
    rw [h']
    simp [reservedItem]
  · intro h
    have h' : JsMap.get s.wishlistItems id = none := h
    unfold MemStorage.reserveWishlistItem
    rw [h']
  · intro it hmem hid
    have hmem' : it ∈ dbTable.map (fun item =>
        if item.id == id then
          { item with isReserved := true, reservedByUserId := some uid }
        else item) := hmem
    simp only [List.mem_map] at hmem'
    obtain ⟨x, hx, hfx⟩ := hmem'
    by_cases hxk : (x.id == id) = true
    · rw [← hfx]
      simp [hxk]
    · exfalso
      rw [← hfx] at hid
      simp [hxk] at hid
      exact hxk (by simp [hid])

/-- Witness for C9: on the already-reserved concrete store
(`reservedByUserId = 2`), a direct store reserve by user 3 succeeds and
overwrites the reservation. -/
theorem store_reserve_unconditional_witness :
    MemStorage.reserveWishlistItem storeReserved 1 3 =
      (some (reservedItem itemBikeReserved 3),
       { storeReserved with wishlistItems := JsMap.set storeReserved.wishlistItems 1 (reservedItem itemBikeReserved 3) }) :=
  (store_reserve_unconditional storeReserved [] 1 3).1 itemBikeReserved (by decide)

/-- Claim C10: for a session user with `familyGroupId = null` the activities
route answers HTTP 200 with the empty array, and the answer is the same for
every store state — the handler returns before any store read. -/
theorem activities_route_no_group (u : SessionUser) (hu : u.familyGroupId = none) :
    ∀ s : MemStorage, activitiesRoute s u = ApiResponse.ok [] := by
  intro s
  unfold activitiesRoute
  simp [optionNatFalsy, hu]

/-- Witness for C10: concrete groupless Bob gets `ok []` on the concrete
store. -/
theorem activities_route_no_group_witness :
    activitiesRoute storeOpen sessionBobNoGroup = ApiResponse.ok [] :=
  activities_route_no_group sessionBobNoGroup rfl storeOpen

end FamilyWishlist
